import Mathlib

/-!
Verification development for the `sonarr-plex-cleaner` repository.

We shallowly embed the retention decision engine (`src/commands/tv.rs`,
`TVCommand::run`), the deletion orchestrator (same function, second half),
the Sonarr client operations `delete_episode_file` and `unmonitor_season`
(`src/services/sonarr.rs`), and the Plex season model
(`src/services/plex.rs`).

Conventions of the embedding:
  * `DateTime<Utc>` timestamps and `chrono::Duration` spans are modelled as
    integers (a fixed tick scale); only their ordered additive structure is
    used by the code.
  * `u32` counts and ids are modelled as `Nat` (no arithmetic is performed
    on them, only equality/comparison), `u128` byte sizes as `Nat`.
  * `HashSet<(String, String)>` is modelled as a `List (String × String)`
    used only through membership, `HashMap<&Series, Vec<&Season>>` as an
    association list built in iteration order; only membership matters.
  * Network calls are modelled by oracles: a response stream for
    `delete_episode_file`, success oracles for the orchestrator's calls.
-/

namespace Sonarr

/-- `SeasonStats` from `src/services/sonarr.rs`: statistics about a season. -/
structure SeasonStats where
  episode_file_count : Nat
  total_episode_count : Nat
  episode_count : Nat
  /-- Time that the next episode airs; `none` if no known next air date. -/
  next_airing : Option Int
  /-- Time that the previous episode aired; `none` if none aired yet. -/
  previous_airing : Option Int
  /-- Bytes consumed by the season (`u128` in the source). -/
  size_on_disk : Nat
deriving DecidableEq, Repr

/-- `Season` from `src/services/sonarr.rs`. -/
structure Season where
  season_number : Nat
  monitored : Bool
  statistics : SeasonStats
deriving DecidableEq, Repr

/-- `Series` from `src/services/sonarr.rs` (tag ids are the `TagId` newtype
over `u32`, modelled as `Nat`). -/
structure Series where
  title : String
  id : Nat
  tags : List Nat
  seasons : List Season
deriving DecidableEq, Repr

/-- `EpisodeFile` from `src/services/sonarr.rs`. -/
structure EpisodeFile where
  id : Nat
  series_id : Nat
  season_number : Nat
  path : String
  size : Nat
deriving DecidableEq, Repr

end Sonarr

namespace TV

open Sonarr

/-- The per-series exemption short-circuit of `TVCommand::run`
(`src/commands/tv.rs` lines 87-92): if a retain tag `(name, id)` was
resolved and the series' tag list contains the id, the whole series is
skipped. -/
def seriesSkippedByTag (retain_tag : Option (String × Nat)) (series : Series) : Bool :=
  match retain_tag with
  | some (_, id) => series.tags.contains id
  | none => false

/-- The watched-set key built for a season in `TVCommand::run`
(`src/commands/tv.rs` lines 105-109): the series title paired with
`format!("Season \x7b\x7d", season.season_number)` (no zero padding). -/
def watchedKey (series : Series) (season : Season) : String × String :=
  (series.title, "Season " ++ toString season.season_number)

/-- The per-season filter closure of `TVCommand::run`
(`src/commands/tv.rs` lines 97-152), with the ambient `Utc::now()` sample
made explicit as the parameter `now`. Returns `true` iff the season is kept
(the closure returns `Some season`). The checks run in source order:
watched-set lookup, still-airing, age, zero-size. -/
def seasonEligible (retain_duration : Int) (now : Int)
    (watched_seasons : List (String × String)) (series : Series) (season : Season) : Bool :=
  let still_airing := season.statistics.next_airing.isSome
  let old_enough :=
    match season.statistics.previous_airing with
    | some air => decide (air + retain_duration < now)
    | none => false
  -- the source variable is called `is_watched` but holds `.get(..).is_none()`,
  -- i.e. it is true when the key is absent from the watched set
  let is_watched := (watched_seasons.find? (fun k => k == watchedKey series season)).isNone
  if is_watched then false
  else if still_airing then false
  else if !old_enough then false
  else if season.statistics.size_on_disk == 0 then false
  else true

/-- The `to_delete` map of `TVCommand::run` (`src/commands/tv.rs` lines
84-160), as an association list in iteration order: per series, drop it
when tagged with the retain tag, otherwise keep the seasons passing the
per-season filter; series with no surviving season are dropped. The
decision instant `now` is a parameter (see `toDeleteClock` for the
embedding that keeps the internal `Utc::now()` sampling explicit). -/
def toDelete (retain_tag : Option (String × Nat)) (retain_duration : Int) (now : Int)
    (watched_seasons : List (String × String)) (serieses : List Series) :
    List (Series × List Season) :=
  serieses.filterMap (fun series =>
    if seriesSkippedByTag retain_tag series then none
    else
      let seasons := series.seasons.filter (seasonEligible retain_duration now watched_seasons series)
      if seasons.isEmpty then none else some (series, seasons))

/-- Membership of a (series, season) pair in the computed eligible set. -/
def eligibleFor (retain_tag : Option (String × Nat)) (retain_duration : Int) (now : Int)
    (watched_seasons : List (String × String)) (serieses : List Series)
    (series : Series) (season : Season) : Prop :=
  ∃ entry ∈ toDelete retain_tag retain_duration now watched_seasons serieses,
    entry.1 = series ∧ season ∈ entry.2

instance decEligibleFor (rt : Option (String × Nat)) (d now : Int)
    (w : List (String × String)) (ss : List Series) (series : Series) (season : Season) :
    Decidable (eligibleFor rt d now w ss series season) :=
  List.decidableBEx _ _

/-- The same `to_delete` computation, but keeping the source's internal
`Utc::now()` sampling explicit: the age check of the season at position
`sj` of the series at position `si` reads the ambient clock at that point
of the iteration (`src/commands/tv.rs` line 102 calls `Utc::now()` inside
the per-season closure). `clock si sj` is the instant that call returns. -/
def toDeleteClock (retain_tag : Option (String × Nat)) (retain_duration : Int)
    (clock : Nat → Nat → Int) (watched_seasons : List (String × String))
    (serieses : List Series) : List (Series × List Season) :=
  serieses.enum.filterMap (fun si_series =>
    let series := si_series.2
    if seriesSkippedByTag retain_tag series then none
    else
      let seasons := (series.seasons.enum.filter (fun sj_season =>
        seasonEligible retain_duration (clock si_series.1 sj_season.1) watched_seasons
          series sj_season.2)).map Prod.snd
      if seasons.isEmpty then none else some (series, seasons))

end TV

namespace Plex

/-- `MediaKind` from `src/services/plex.rs`. -/
inductive MediaKind where
  | Movie : MediaKind
  | TV : MediaKind
  | TVSeason : MediaKind
  | TVEpisode : MediaKind
  | AllEpisodes : MediaKind
  | Music : MediaKind
deriving DecidableEq, Repr

/-- `Season` from `src/services/plex.rs`: a season of a TV show as listed
by the Plex API. -/
structure Season where
  id : String
  show_name : String
  title : String
  kind : MediaKind
  /-- `leafCount`: episodes in the season that are indexed by Plex. -/
  episodes : Nat
  /-- `viewedLeafCount`: episodes that have been marked "viewed". -/
  viewed_episodes : Nat
deriving DecidableEq, Repr

/-- `Season::fully_watched` (`src/services/plex.rs` lines 115-117). -/
def Season.fully_watched (s : Season) : Bool :=
  s.viewed_episodes == s.episodes

/-- Deserialization of one `Directory` element into a `Season`, with the
serde defaults of `src/services/plex.rs`: `parentTitle`, `leafCount` and
`viewedLeafCount` are `#[serde(default)]` (empty string / 0 when omitted),
and an omitted `type` defaults to the `AllEpisodes` pseudo-season kind
(`all_episodes_pseudoseason`). -/
def seasonOfListing (id : String) (parentTitle : Option String) (title : String)
    (kind : Option MediaKind) (leafCount viewedLeafCount : Option Nat) : Season :=
  { id := id
    show_name := parentTitle.getD ""
    title := title
    kind := kind.getD MediaKind.AllEpisodes
    episodes := leafCount.getD 0
    viewed_episodes := viewedLeafCount.getD 0 }

/-- The final filter of `PlexClient::all_tv_seasons`
(`src/services/plex.rs` line 190): `AllEpisodes` pseudo-seasons are dropped
from the returned listing. -/
def allTVSeasons (listing : List Season) : List Season :=
  listing.filter (fun s => !(s.kind == MediaKind.AllEpisodes))

end Plex

namespace TV

/-- The watched-set construction of `TVCommand::run` (`src/commands/tv.rs`
lines 72-78), applied to the season list returned by
`plex.all_tv_seasons()`: keep the fully watched seasons and key them by
`(show_name, title)`. -/
def watchedSeasons (seasons : List Plex.Season) : List (String × String) :=
  (seasons.filter Plex.Season.fully_watched).map (fun s => (s.show_name, s.title))

end TV

namespace Sonarr

/-- The observable outcome of one HTTP DELETE attempt: either the
connection fails (`reqwest` `send()` returns `Err`) or the server answers
with a status code. -/
inductive Attempt where
  | conn : Attempt
  | status : Nat → Attempt
deriving DecidableEq, Repr

/-- Errors `delete_episode_file` can surface to its caller. -/
inductive DeleteError where
  | connFailed : DeleteError
  | httpStatus : Nat → DeleteError
deriving DecidableEq, Repr

/-- `StatusCode::is_success`: 2xx. -/
def isSuccessStatus (s : Nat) : Bool := 200 ≤ s && s < 300

/-- `StatusCode::is_server_error`: 5xx. -/
def isServerErrorStatus (s : Nat) : Bool := 500 ≤ s && s < 600

/-- `StatusCode::is_client_error`: 4xx. -/
def isClientErrorStatus (s : Nat) : Bool := 400 ≤ s && s < 500

/-- `Response::error_for_status`: an error exactly for 4xx and 5xx codes. -/
def errorForStatus (s : Nat) : Except DeleteError Unit :=
  if isClientErrorStatus s || isServerErrorStatus s then
    Except.error (DeleteError.httpStatus s)
  else Except.ok ()

/-- One run of the closure passed to `retry` inside `delete_episode_file`
(`src/services/sonarr.rs` lines 328-337): re-send the DELETE; a 2xx or a
404 response is `Ok`, any other response goes through `error_for_status`
(so 4xx/5xx are `Err`, anything else `Ok`), and a send failure is `Err`
via `?`. -/
def retryAttemptResult : Attempt → Except DeleteError Unit
  | Attempt.conn => Except.error DeleteError.connFailed
  | Attempt.status s =>
    if isSuccessStatus s || s == 404 then Except.ok ()
    else errorForStatus s

/-- The `retry(Exponential::from_millis(200), ...)` loop of
`delete_episode_file`: the delay iterator is unbounded, so the loop reruns
the closure after every `Err` and only ever finishes with `Ok`. Evaluated
against the (finite) list of remaining attempt outcomes; `none` means every
listed attempt failed and the loop is still running. -/
def retryLoop : List Attempt → Option (Except DeleteError Unit)
  | [] => none
  | a :: rest =>
    match retryAttemptResult a with
    | Except.ok _ => some (Except.ok ())
    | Except.error _ => retryLoop rest

/-- `SonarrClient::delete_episode_file` (`src/services/sonarr.rs` lines
310-346), as a function of the stream of attempt outcomes the network
produces (first element = outcome of the initial DELETE). The initial
`req.send()?` propagates a connection failure; a 2xx initial response is
`Ok`; a 5xx initial response enters the retry loop over the remaining
outcomes; any other initial response goes through `error_for_status` (4xx,
404 included, becomes `Err`; non-error codes become `Ok`). `none` means the
code is still inside the unbounded retry loop after consuming the whole
list. -/
def delete_episode_file : List Attempt → Option (Except DeleteError Unit)
  | [] => none
  | a :: rest =>
    match a with
    | Attempt.conn => some (Except.error DeleteError.connFailed)
    | Attempt.status s =>
      if isSuccessStatus s then some (Except.ok ())
      else if isServerErrorStatus s then retryLoop rest
      else
        match errorForStatus s with
        | Except.error e => some (Except.error e)
        | Except.ok _ => some (Except.ok ())

/-- A JSON value, standing in for `serde_json::Value` in the flattened
extra bags; `unmonitor_season` never inspects these. -/
inductive JValue where
  | null : JValue
  | bool : Bool → JValue
  | num : Int → JValue
  | str : String → JValue
deriving DecidableEq, Repr

/-- The local `UpdateSeason` record of `SonarrClient::unmonitor_season`
(`src/services/sonarr.rs` lines 287-294): season number, monitored flag,
and the flattened bag of all other fields. -/
structure UpdateSeason where
  season_number : Nat
  monitored : Bool
  extra : List (String × JValue)
deriving DecidableEq, Repr

/-- The local `UpdateSeries` record of `SonarrClient::unmonitor_season`
(`src/services/sonarr.rs` lines 272-279): id, seasons, and the flattened
bag of all other fields. -/
structure UpdateSeries where
  id : Nat
  seasons : List UpdateSeason
  extra : List (String × JValue)
deriving DecidableEq, Repr

/-- `SonarrClient::unmonitor_season` (`src/services/sonarr.rs` lines
271-307), given the `UpdateSeries` record fetched for the series: returns
the record submitted via `update_series` (PUT), or `none` when no season
matches the requested number and no update request is sent. In both cases
the Rust function returns `Ok(())`. -/
def unmonitor_season_update (series : UpdateSeries) (season : Nat) : Option UpdateSeries :=
  match series.seasons.enum.find? (fun p => p.2.season_number == season) with
  | none => none
  | some (i, s) =>
    some { series with seasons := series.seasons.set i { s with monitored := false } }

end Sonarr

namespace TV

open Sonarr

/-- Network calls and report lines emitted by the deletion orchestrator
(the second half of `TVCommand::run`, `src/commands/tv.rs` lines 162-194),
in order of occurrence. `report` carries the raw data interpolated into
the `info!` line: season file count, series title, season number, and the
season's `size_on_disk`. -/
inductive Event where
  | fetchFiles : Nat → Event
  | report : Nat → String → Nat → Nat → Event
  | unmonitor : Nat → Nat → Event
  | deleteFile : Nat → Event
deriving DecidableEq, Repr

/-- `true` for the mutating Sonarr calls (season monitor-state change,
episode-file deletion); `false` for the read-only fetch and the log line. -/
def Event.isMutation : Event → Bool
  | Event.unmonitor _ _ => true
  | Event.deleteFile _ => true
  | _ => false

/-- The `for file in season_files` loop (`src/commands/tv.rs` lines
187-191): each iteration calls `delete_episode_file` and `.expect`s the
result, so a failing call panics, aborting everything after it. Returns
the emitted events and whether a panic occurred. -/
def processFiles (deleteOk : Nat → Bool) : List EpisodeFile → List Event × Bool
  | [] => ([], false)
  | f :: rest =>
    if deleteOk f.id then
      let r := processFiles deleteOk rest
      (Event.deleteFile f.id :: r.1, r.2)
    else ([Event.deleteFile f.id], true)

/-- The body of the `for season in seasons` loop (`src/commands/tv.rs`
lines 167-193): partition the fetched series files by season number, emit
the report line, and when `delete_files` is set call `unmonitor_season`
(`.expect`: failure panics) followed by the per-file deletion loop. -/
def processSeason (delete_files : Bool) (unmonitorOk : Nat → Nat → Bool)
    (deleteOk : Nat → Bool) (series : Series) (series_files : List EpisodeFile)
    (season : Season) : List Event × Bool :=
  let season_files := series_files.filter (fun f => f.season_number == season.season_number)
  let rep := Event.report season_files.length series.title season.season_number
    season.statistics.size_on_disk
  if delete_files then
    if unmonitorOk series.id season.season_number then
      let r := processFiles deleteOk season_files
      (rep :: Event.unmonitor series.id season.season_number :: r.1, r.2)
    else ([rep, Event.unmonitor series.id season.season_number], true)
  else ([rep], false)

/-- The `for season in seasons` loop itself; a panic in one season aborts
the remaining seasons. -/
def processSeasons (delete_files : Bool) (unmonitorOk : Nat → Nat → Bool)
    (deleteOk : Nat → Bool) (series : Series) (series_files : List EpisodeFile) :
    List Season → List Event × Bool
  | [] => ([], false)
  | s :: rest =>
    let r := processSeason delete_files unmonitorOk deleteOk series series_files s
    if r.2 then (r.1, true)
    else
      let r2 := processSeasons delete_files unmonitorOk deleteOk series series_files rest
      (r.1 ++ r2.1, r2.2)

/-- The `for (series, seasons) in to_delete.iter()` loop
(`src/commands/tv.rs` lines 162-194): fetch the series' episode files
(`.expect`: a failed fetch panics), then process its seasons; a panic
aborts all remaining entries. `fetchFiles series_id = none` models a
failing `fetch_episode_files` call. -/
def processEntries (delete_files : Bool) (fetchFiles : Nat → Option (List EpisodeFile))
    (unmonitorOk : Nat → Nat → Bool) (deleteOk : Nat → Bool) :
    List (Series × List Season) → List Event × Bool
  | [] => ([], false)
  | entry :: rest =>
    match fetchFiles entry.1.id with
    | none => ([Event.fetchFiles entry.1.id], true)
    | some files =>
      let r := processSeasons delete_files unmonitorOk deleteOk entry.1 files entry.2
      if r.2 then (Event.fetchFiles entry.1.id :: r.1, true)
      else
        let r2 := processEntries delete_files fetchFiles unmonitorOk deleteOk rest
        (Event.fetchFiles entry.1.id :: (r.1 ++ r2.1), r2.2)

/-- `S{:02}` formatting of the season number in the report line: pad with
zeros to width 2. -/
def pad2 (n : Nat) : String :=
  if n < 10 then "0" ++ toString n else toString n

/-- Byte units of the `byte_unit` crate (binary scale). -/
inductive ByteUnit where
  | B : ByteUnit
  | KiB : ByteUnit
  | MiB : ByteUnit
  | GiB : ByteUnit
  | TiB : ByteUnit
  | PiB : ByteUnit
deriving DecidableEq, Repr

/-- The unit in which the report line renders the reclaimed size: the
source calls `Byte::from_bytes(size).get_adjusted_unit(ByteUnit::GiB)`
(`src/commands/tv.rs` lines 177-178), and `get_adjusted_unit` converts the
value into exactly the unit it is given — GiB here, whatever the
magnitude. (The numeric value is an `f64`; only the unit is modelled.) -/
def reportSizeUnit (_size_on_disk : Nat) : ByteUnit :=
  ByteUnit.GiB

/-- Modelled from the spec: "reclaimed size rendered in a human-friendly
byte unit (auto-scaled, e.g. \"12.3 GiB\")" — the unit an auto-scaling
renderer (such as `byte_unit`'s `get_appropriate_unit` on the binary
scale) picks for the magnitude: the largest binary unit in which the
value is at least 1. -/
def autoScaledUnit (size_on_disk : Nat) : ByteUnit :=
  if size_on_disk < 1024 then ByteUnit.B
  else if size_on_disk < 1024 ^ 2 then ByteUnit.KiB
  else if size_on_disk < 1024 ^ 3 then ByteUnit.MiB
  else if size_on_disk < 1024 ^ 4 then ByteUnit.GiB
  else if size_on_disk < 1024 ^ 5 then ByteUnit.TiB
  else ByteUnit.PiB

/-- The rendered components of one report line, as interpolated by the
`info!` at `src/commands/tv.rs` lines 172-179: file count, series title,
zero-padded season label, and the unit the size is rendered in. -/
def renderReport : Event → Option (Nat × String × String × ByteUnit)
  | Event.report fileCount title seasonNumber size =>
    some (fileCount, title, "S" ++ pad2 seasonNumber, reportSizeUnit size)
  | _ => none

end TV

namespace TV

open Sonarr

lemma find?_key_isNone_iff (w : List (String × String)) (key : String × String) :
    ((w.find? (fun k => k == key)).isNone = true) ↔ key ∉ w := by
  rw [Option.isNone_iff_eq_none, List.find?_eq_none]
  constructor
  · intro h hmem
    exact h key hmem (by simp)
  · intro h x hx hbeq
    rw [beq_iff_eq] at hbeq
    subst hbeq
    exact h hx

/-- The per-season filter accepts a season exactly when the four checks of
the source hold: watched-set membership, no next airing, previous airing
older than the retention deadline, nonzero size on disk. -/
lemma seasonEligible_iff (d now : Int) (w : List (String × String))
    (series : Series) (season : Season) :
    seasonEligible d now w series season = true ↔
      (watchedKey series season ∈ w ∧
       season.statistics.next_airing = none ∧
       (∃ air, season.statistics.previous_airing = some air ∧ air + d < now) ∧
       season.statistics.size_on_disk ≠ 0) := by
  unfold seasonEligible
  by_cases hw : watchedKey series season ∈ w
  · have h1 : ((w.find? (fun k => k == watchedKey series season)).isNone) = false := by
      rcases h : (w.find? (fun k => k == watchedKey series season)).isNone with _ | _
      · rfl
      · exact absurd ((find?_key_isNone_iff w _).mp h) (not_not_intro hw)
    rcases hna : season.statistics.next_airing with _ | t <;>
      rcases hpa : season.statistics.previous_airing with _ | air <;>
        simp [h1, hna, hpa, hw]
  · have h1 : ((w.find? (fun k => k == watchedKey series season)).isNone) = true :=
      (find?_key_isNone_iff w _).mpr hw
    simp [h1, hw]

/-- Membership of an entry in the `to_delete` association list. -/
lemma mem_toDelete_iff (rt : Option (String × Nat)) (d now : Int)
    (w : List (String × String)) (serieses : List Series)
    (series : Series) (ss : List Season) :
    (series, ss) ∈ toDelete rt d now w serieses ↔
      (series ∈ serieses ∧ seriesSkippedByTag rt series = false ∧
       ss = series.seasons.filter (seasonEligible d now w series) ∧ ss ≠ []) := by
  unfold toDelete
  rw [List.mem_filterMap]
  constructor
  · rintro ⟨a, ha, hfa⟩
    rcases hskip : seriesSkippedByTag rt a with _ | _
    · simp only [hskip, Bool.false_eq_true, if_false] at hfa
      rcases hemp : (a.seasons.filter (seasonEligible d now w a)).isEmpty with _ | _
      · simp only [hemp, Bool.false_eq_true, if_false, Option.some.injEq, Prod.mk.injEq] at hfa
        obtain ⟨rfl, rfl⟩ := hfa
        refine ⟨ha, hskip, rfl, ?_⟩
        intro hnil
        rw [hnil] at hemp
        simp at hemp
      · simp [hemp] at hfa
    · simp [hskip] at hfa
  · rintro ⟨ha, hskip, rfl, hne⟩
    refine ⟨series, ha, ?_⟩
    have hemp : (series.seasons.filter (seasonEligible d now w series)).isEmpty = false := by
      rw [List.isEmpty_eq_false_iff_exists_mem]
      rcases List.exists_mem_of_ne_nil _ hne with ⟨x, hx⟩
      exact ⟨x, hx⟩
    simp [hskip, hemp]

/-- The exemption short-circuit is off exactly when the resolved retain
tag (if any) is not among the series' tags. -/
lemma seriesSkippedByTag_eq_false_iff (rt : Option (String × Nat)) (series : Series) :
    seriesSkippedByTag rt series = false ↔
      ∀ name id, rt = some (name, id) → id ∉ series.tags := by
  cases rt with
  | none => simp [seriesSkippedByTag]
  | some p =>
    rcases p with ⟨name, id⟩
    simp only [seriesSkippedByTag, Option.some.injEq, Prod.mk.injEq]
    constructor
    · rintro h name' id' ⟨rfl, rfl⟩ hmem
      rw [Bool.eq_false_iff] at h
      exact h (List.elem_iff.mpr hmem)
    · intro h
      rw [Bool.eq_false_iff]
      intro hc
      exact h name id ⟨rfl, rfl⟩ (List.elem_iff.mp hc)

end TV

namespace TV

open Sonarr

/-- Season statistics used by the concrete test instances: previous airing
at instant 0, no next airing, 5 GB on disk. -/
def exStats : SeasonStats :=
  { episode_file_count := 10
    total_episode_count := 10
    episode_count := 10
    next_airing := none
    previous_airing := some 0
    size_on_disk := 5000000000 }

/-- Concrete season instance for witnesses. -/
def exSeason : Season :=
  { season_number := 1, monitored := true, statistics := exStats }

/-- Concrete series instance for witnesses. -/
def exSeries : Series :=
  { title := "Show X", id := 1, tags := [], seasons := [exSeason] }

/-- Concrete watched set containing the key of `exSeason`. -/
def exWatched : List (String × String) := [("Show X", "Season 1")]

/-- C1: For every series in the download-tracker inventory and every
season of that series, the season appears in the computed eligible set iff
the series does not carry the resolved exemption tag, the key
(series title, "Season N") is in the watched set, `next_airing` is absent,
`previous_airing` is present with `previous_airing + retain_duration <
now`, and `size_on_disk > 0`. -/
theorem C1_season_eligible_iff (rt : Option (String × Nat)) (d now : Int)
    (w : List (String × String)) (serieses : List Series)
    (series : Series) (season : Season)
    (hser : series ∈ serieses) (hsea : season ∈ series.seasons) :
    eligibleFor rt d now w serieses series season ↔
      ((∀ name id, rt = some (name, id) → id ∉ series.tags) ∧
       watchedKey series season ∈ w ∧
       season.statistics.next_airing = none ∧
       (∃ air, season.statistics.previous_airing = some air ∧ air + d < now) ∧
       0 < season.statistics.size_on_disk) := by
  constructor
  · rintro ⟨entry, hmem, hfst, hsnd⟩
    obtain ⟨e1, e2⟩ := entry
    dsimp at hfst hsnd
    subst hfst
    rw [mem_toDelete_iff] at hmem
    obtain ⟨-, hskip, hss, -⟩ := hmem
    subst hss
    rw [List.mem_filter] at hsnd
    obtain ⟨-, helig⟩ := hsnd
    rw [seasonEligible_iff] at helig
    obtain ⟨h1, h2, h3, h4⟩ := helig
    exact ⟨(seriesSkippedByTag_eq_false_iff rt e1).mp hskip, h1, h2, h3,
      Nat.pos_of_ne_zero h4⟩
  · rintro ⟨htag, hw, hna, hpa, hsz⟩
    have helig : seasonEligible d now w series season = true :=
      (seasonEligible_iff d now w series season).mpr ⟨hw, hna, hpa, by omega⟩
    refine ⟨(series, series.seasons.filter (seasonEligible d now w series)), ?_, rfl, ?_⟩
    · rw [mem_toDelete_iff]
      refine ⟨hser, (seriesSkippedByTag_eq_false_iff rt series).mpr htag, rfl, ?_⟩
      exact List.ne_nil_of_mem (List.mem_filter.mpr ⟨hsea, helig⟩)
    · exact List.mem_filter.mpr ⟨hsea, helig⟩

/-- Witness for C1 at a concrete input (scenario A of the spec, with
`now = 70`, `retain_duration = 60` and `previous_airing = 0`). -/
theorem C1_season_eligible_iff_witness :
    exSeries ∈ [exSeries] ∧ exSeason ∈ exSeries.seasons ∧
      (eligibleFor none 60 70 exWatched [exSeries] exSeries exSeason ↔
        ((∀ name id, (none : Option (String × Nat)) = some (name, id) → id ∉ exSeries.tags) ∧
         watchedKey exSeries exSeason ∈ exWatched ∧
         exSeason.statistics.next_airing = none ∧
         (∃ air, exSeason.statistics.previous_airing = some air ∧ air + 60 < 70) ∧
         0 < exSeason.statistics.size_on_disk)) :=
  ⟨by simp, by simp [exSeries],
    C1_season_eligible_iff none 60 70 exWatched [exSeries] exSeries exSeason
      (by simp) (by simp [exSeries])⟩

/-- C5: For every series whose tag set contains the resolved exemption
tag, no season of that series appears in the eligible set. -/
theorem C5_tagged_series_never_eligible (name : String) (id : Nat) (d now : Int)
    (w : List (String × String)) (serieses : List Series)
    (series : Series) (season : Season) (htag : id ∈ series.tags) :
    ¬ eligibleFor (some (name, id)) d now w serieses series season := by
  rintro ⟨entry, hmem, hfst, hsnd⟩
  obtain ⟨e1, e2⟩ := entry
  dsimp at hfst hsnd
  subst hfst
  rw [mem_toDelete_iff] at hmem
  obtain ⟨-, hskip, -, -⟩ := hmem
  rw [seriesSkippedByTag_eq_false_iff] at hskip
  exact hskip name id rfl htag

/-- Concrete series carrying tag 7, whose single season would otherwise
qualify (same season data as `exSeries`). -/
def exTaggedSeries : Series :=
  { title := "Show X", id := 1, tags := [7], seasons := [exSeason] }

/-- Witness for C5: the tagged series' season passes every per-season
check (it is the C1 witness situation) yet is not eligible. -/
theorem C5_tagged_series_never_eligible_witness :
    7 ∈ exTaggedSeries.tags ∧
      ¬ eligibleFor (some ("keep", 7)) 60 70 exWatched [exTaggedSeries]
        exTaggedSeries exSeason :=
  ⟨by simp [exTaggedSeries],
    C5_tagged_series_never_eligible "keep" 7 60 70 exWatched [exTaggedSeries]
      exTaggedSeries exSeason (by simp [exTaggedSeries])⟩

lemma filter_enumFrom_map_snd {α : Type} (f : α → Bool) :
    ∀ (l : List α) (n : Nat),
      (((l.enumFrom n).filter (fun p => f p.2)).map Prod.snd) = l.filter f
  | [], _ => rfl
  | a :: l, n => by
    simp only [List.enumFrom, List.filter_cons]
    rcases h : f a with _ | _
    · simpa [h] using filter_enumFrom_map_snd f l (n + 1)
    · simp [h, filter_enumFrom_map_snd f l (n + 1)]

lemma toDeleteClock_const_aux (rt : Option (String × Nat)) (d now : Int)
    (w : List (String × String)) :
    ∀ (serieses : List Series) (k : Nat),
      (serieses.enumFrom k).filterMap (fun p =>
        if seriesSkippedByTag rt p.2 then none
        else
          let seasons := ((p.2.seasons.enum.filter (fun q =>
            seasonEligible d now w p.2 q.2)).map Prod.snd)
          if seasons.isEmpty then none else some (p.2, seasons))
        = toDelete rt d now w serieses
  | [], _ => rfl
  | s :: ss, k => by
    unfold toDelete
    simp only [List.enumFrom, List.filterMap_cons]
    have hseasons : ((s.seasons.enum.filter (fun q =>
        seasonEligible d now w s q.2)).map Prod.snd) =
        s.seasons.filter (seasonEligible d now w s) := by
      rw [show s.seasons.enum = s.seasons.enumFrom 0 from rfl]
      exact filter_enumFrom_map_snd (seasonEligible d now w s) s.seasons 0
    have hrest := toDeleteClock_const_aux rt d now w ss (k + 1)
    unfold toDelete at hrest
    rcases hskip : seriesSkippedByTag rt s with _ | _
    · simp only [hskip, Bool.false_eq_true, if_false]
      rw [hseasons, hrest]
    · simp only [hskip, if_true]
      rw [hrest]

/-- C3 (amended): `TVCommand::run` samples `Utc::now()` inside the
per-season age check instead of taking the decision instant as a
parameter; when every internal clock sample returns the same instant
`now`, the computed eligible set coincides with the now-parameterized
decision — so the decision is deterministic in (inputs, sampled clock). -/
theorem C3_decision_deterministic_given_clock (rt : Option (String × Nat)) (d now : Int)
    (w : List (String × String)) (serieses : List Series) :
    toDeleteClock rt d (fun _ _ => now) w serieses = toDelete rt d now w serieses := by
  unfold toDeleteClock
  rw [show serieses.enum = serieses.enumFrom 0 from rfl]
  exact toDeleteClock_const_aux rt d now w serieses 0

/-- Counterexample to C3 as stated: the eligible set is not a function of
the frozen data inputs alone — on identical inventory, watched set, tag
and retention duration, runs whose internal `Utc::now()` samples return 50
(before the retention deadline 0 + 60) and 70 (after it) compute different
eligible sets. -/
theorem C3_clock_counterexample :
    toDeleteClock none 60 (fun _ _ => 50) exWatched [exSeries] ≠
      toDeleteClock none 60 (fun _ _ => 70) exWatched [exSeries] := by
  decide

end TV

namespace Sonarr

lemma not_success_of_server_error (s : Nat) (h : isServerErrorStatus s = true) :
    isSuccessStatus s = false := by
  unfold isServerErrorStatus at h
  unfold isSuccessStatus
  rw [Bool.and_eq_true, decide_eq_true_eq, decide_eq_true_eq] at h
  have : ¬ (s < 300) := by omega
  simp [this]

/-- If every attempt in `pre` makes the retry closure fail and the attempt
`a` makes it succeed, the retry loop runs through `pre` and stops
successfully at `a`. -/
lemma retryLoop_reaches_ok (a : Attempt) (rest : List Attempt) :
    ∀ pre : List Attempt,
      (∀ x ∈ pre, ∃ e, retryAttemptResult x = Except.error e) →
      retryAttemptResult a = Except.ok () →
      retryLoop (pre ++ a :: rest) = some (Except.ok ())
  | [], _, ha => by simp [retryLoop, ha]
  | x :: xs, hpre, ha => by
    obtain ⟨e, he⟩ := hpre x (by simp)
    simp only [List.cons_append, retryLoop, he]
    exact retryLoop_reaches_ok a rest xs (fun y hy => hpre y (by simp [hy])) ha

/-- C2 (amended): a not-found (404) response is treated as success only
during the retry phase entered after an initial server-error (5xx)
response: if the first DELETE draws a 5xx and a later attempt draws a 404
(after any run of failing attempts), `delete_episode_file` returns
success. A 404 on the very first attempt is instead propagated as an
error (see the counterexample). -/
theorem C2_notfound_is_success_after_server_error (s : Nat) (pre rest : List Attempt)
    (hs : isServerErrorStatus s = true)
    (hpre : ∀ x ∈ pre, ∃ e, retryAttemptResult x = Except.error e) :
    delete_episode_file (Attempt.status s :: (pre ++ Attempt.status 404 :: rest)) =
      some (Except.ok ()) := by
  simp only [delete_episode_file, not_success_of_server_error s hs, hs,
    Bool.false_eq_true, if_false, if_true]
  exact retryLoop_reaches_ok (Attempt.status 404) rest pre hpre rfl

/-- Witness for C2's amended theorem: a 500 followed directly by a 404 is
reported as success. -/
theorem C2_notfound_is_success_after_server_error_witness :
    isServerErrorStatus 500 = true ∧
      (∀ x ∈ ([] : List Attempt), ∃ e, retryAttemptResult x = Except.error e) ∧
      delete_episode_file [Attempt.status 500, Attempt.status 404] =
        some (Except.ok ()) :=
  ⟨by decide, by simp,
    C2_notfound_is_success_after_server_error 500 [] [] (by decide) (by simp)⟩

/-- Counterexample to C2 as stated: a not-found response to the very first
DELETE attempt falls through to `error_for_status` and is returned as an
error, not success (`src/services/sonarr.rs` lines 341-344). -/
theorem C2_first_attempt_notfound_counterexample :
    delete_episode_file [Attempt.status 404] =
      some (Except.error (DeleteError.httpStatus 404)) := rfl

/-- C7 (amended): the retry-with-backoff path is entered only when the
initial DELETE attempt returns a 5xx response. A connection failure on
the first attempt is propagated as an error (not retried), as is any 4xx
(404 included) on the first attempt. Once in the retry loop, every
failing attempt — connection failure, 4xx other than 404, or 5xx — is
retried indefinitely (the `Exponential::from_millis(200)` delay iterator
is unbounded), until some attempt returns a 2xx, a 404, or any other
non-4xx/5xx status; the loop never returns an error. -/
theorem C7_retry_only_after_initial_server_error :
    (∀ rest : List Attempt,
      delete_episode_file (Attempt.conn :: rest) =
        some (Except.error DeleteError.connFailed)) ∧
    (∀ (s : Nat) (rest : List Attempt), isClientErrorStatus s = true →
      delete_episode_file (Attempt.status s :: rest) =
        some (Except.error (DeleteError.httpStatus s))) ∧
    (∀ (s : Nat) (rest : List Attempt), isServerErrorStatus s = true →
      delete_episode_file (Attempt.status s :: rest) = retryLoop rest) ∧
    (∀ (pre : List Attempt) (a : Attempt) (rest : List Attempt),
      (∀ x ∈ pre, ∃ e, retryAttemptResult x = Except.error e) →
      retryAttemptResult a = Except.ok () →
      retryLoop (pre ++ a :: rest) = some (Except.ok ())) ∧
    (∀ l : List Attempt,
      (∀ x ∈ l, ∃ e, retryAttemptResult x = Except.error e) →
      retryLoop l = none) := by
  refine ⟨fun rest => rfl, ?_, ?_, ?_, ?_⟩
  · intro s rest hc
    have h1 : isSuccessStatus s = false := by
      unfold isClientErrorStatus at hc
      unfold isSuccessStatus
      rw [Bool.and_eq_true, decide_eq_true_eq, decide_eq_true_eq] at hc
      have : ¬ (200 ≤ s ∧ s < 300) := by omega
      simp only [Bool.and_eq_false_iff, decide_eq_false_iff_not]
      omega
    have h2 : isServerErrorStatus s = false := by
      unfold isClientErrorStatus at hc
      unfold isServerErrorStatus
      rw [Bool.and_eq_true, decide_eq_true_eq, decide_eq_true_eq] at hc
      simp only [Bool.and_eq_false_iff, decide_eq_false_iff_not]
      omega
    have h3 : errorForStatus s = Except.error (DeleteError.httpStatus s) := by
      unfold errorForStatus
      simp [hc]
    simp only [delete_episode_file, h1, h2, h3, Bool.false_eq_true, if_false]
  · intro s rest hs
    simp only [delete_episode_file, not_success_of_server_error s hs, hs,
      Bool.false_eq_true, if_false, if_true]
  · exact fun pre a rest hpre ha => retryLoop_reaches_ok a rest pre hpre ha
  · intro l hl
    induction l with
    | nil => rfl
    | cons x xs ih =>
      obtain ⟨e, he⟩ := hl x (by simp)
      simp only [retryLoop, he]
      exact ih (fun y hy => hl y (by simp [hy]))

/-- Witness for C7's amended theorem: a 403 on the first attempt is
propagated as an error. -/
theorem C7_retry_only_after_initial_server_error_witness :
    isClientErrorStatus 403 = true ∧
      delete_episode_file [Attempt.status 403] =
        some (Except.error (DeleteError.httpStatus 403)) :=
  ⟨by decide, C7_retry_only_after_initial_server_error.2.1 403 [] (by decide)⟩

/-- Counterexample to C7 as stated: (i) a connection failure on the first
DELETE attempt is propagated as an error even though the next attempt
would succeed — it is not retried; (ii) after an initial 5xx, a 403 (a
non-404 client error) is not propagated but silently retried, and the
call succeeds on the following attempt. -/
theorem C7_first_attempt_counterexample :
    delete_episode_file [Attempt.conn, Attempt.status 200] =
        some (Except.error DeleteError.connFailed) ∧
      delete_episode_file [Attempt.status 500, Attempt.status 403, Attempt.status 200] =
        some (Except.ok ()) :=
  ⟨rfl, rfl⟩

end Sonarr

namespace TV

open Sonarr

/-- The report event `processSeason` emits for a season. -/
def seasonReport (series : Series) (files : List EpisodeFile) (season : Season) : Event :=
  Event.report (files.filter (fun f => f.season_number == season.season_number)).length
    series.title season.season_number season.statistics.size_on_disk

lemma processSeason_dry (uo : Nat → Nat → Bool) (dk : Nat → Bool)
    (series : Series) (files : List EpisodeFile) (season : Season) :
    processSeason false uo dk series files season = ([seasonReport series files season], false) :=
  rfl

lemma processSeasons_dry (uo : Nat → Nat → Bool) (dk : Nat → Bool)
    (series : Series) (files : List EpisodeFile) :
    ∀ l : List Season,
      processSeasons false uo dk series files l = (l.map (seasonReport series files), false)
  | [] => rfl
  | s :: rest => by
    unfold processSeasons
    rw [processSeason_dry]
    simp [processSeasons_dry uo dk series files rest]

/-- C6: in dry-run mode (delete-files flag unset) the orchestrator's trace
contains no mutating call — no `unmonitor_season` and no
`delete_episode_file` — for any inventory and any oracle behavior; only
fetches and report lines occur. -/
theorem C6_dry_run_no_mutating_call (fetchF : Nat → Option (List EpisodeFile))
    (uo : Nat → Nat → Bool) (dk : Nat → Bool) (to_del : List (Series × List Season)) :
    (processEntries false fetchF uo dk to_del).1.all (fun e => !(e.isMutation)) = true := by
  induction to_del with
  | nil => rfl
  | cons entry rest ih =>
    unfold processEntries
    rcases hf : fetchF entry.1.id with _ | files
    · simp [Event.isMutation]
    · simp only [processSeasons_dry, Bool.false_eq_true, if_false, List.all_cons,
        List.all_append, List.all_map, Bool.and_eq_true]
      refine And.intro rfl (And.intro ?_ ih)
      rw [List.all_eq_true]
      intro s hs
      rcases List.mem_map.mp hs with ⟨t, ht, rfl⟩
      rfl

/-- Concrete second season (number 2) and a two-season series, used by the
orchestrator claims. -/
def exSeason2 : Season :=
  { season_number := 2, monitored := true, statistics := exStats }

/-- Concrete series with two seasons, both of which the decision would
find eligible. -/
def exSeries2 : Series :=
  { title := "Show X", id := 1, tags := [], seasons := [exSeason, exSeason2] }

lemma processSeasons_append (df : Bool) (uo : Nat → Nat → Bool) (dk : Nat → Bool)
    (series : Series) (files : List EpisodeFile) (l2 : List Season) :
    ∀ l1 : List Season, (processSeasons df uo dk series files l1).2 = false →
      processSeasons df uo dk series files (l1 ++ l2) =
        ((processSeasons df uo dk series files l1).1 ++
            (processSeasons df uo dk series files l2).1,
          (processSeasons df uo dk series files l2).2)
  | [], _ => by simp [processSeasons]
  | s :: rest, h => by
    simp only [processSeasons, List.cons_append] at h ⊢
    rcases hr : (processSeason df uo dk series files s).2 with _ | _
    · simp only [hr, Bool.false_eq_true, if_false, List.append_eq] at h ⊢
      rw [processSeasons_append df uo dk series files l2 rest h]
      simp
    · simp [hr] at h

lemma processSeason_unmonitor_fail (uo : Nat → Nat → Bool) (dk : Nat → Bool)
    (series : Series) (files : List EpisodeFile) (season : Season)
    (hfail : uo series.id season.season_number = false) :
    processSeason true uo dk series files season =
      ([seasonReport series files season, Event.unmonitor series.id season.season_number],
        true) := by
  unfold processSeason
  rw [hfail]
  simp [seasonReport]

/-- C4 (amended): when the unmonitor-season call fails for an eligible
season, `TVCommand::run` panics (the result of `unmonitor_season` is
`.expect`ed): the trace ends at the failed unmonitor call, so not only
that season's file deletions but also all remaining eligible seasons of
the same series and all remaining series are skipped. -/
theorem C4_unmonitor_failure_aborts_whole_run (fetchF : Nat → Option (List EpisodeFile))
    (uo : Nat → Nat → Bool) (dk : Nat → Bool) (series : Series) (files : List EpisodeFile)
    (pre post : List Season) (s : Season) (rest : List (Series × List Season))
    (hfetch : fetchF series.id = some files)
    (hpre : (processSeasons true uo dk series files pre).2 = false)
    (hfail : uo series.id s.season_number = false) :
    processEntries true fetchF uo dk ((series, pre ++ s :: post) :: rest) =
      (Event.fetchFiles series.id ::
          ((processSeasons true uo dk series files pre).1 ++
            [seasonReport series files s, Event.unmonitor series.id s.season_number]),
        true) := by
  have hstep : processSeasons true uo dk series files (s :: post) =
      ([seasonReport series files s, Event.unmonitor series.id s.season_number], true) := by
    unfold processSeasons
    rw [processSeason_unmonitor_fail uo dk series files s hfail]
    rfl
  have hseasons : processSeasons true uo dk series files (pre ++ s :: post) =
      ((processSeasons true uo dk series files pre).1 ++
          [seasonReport series files s, Event.unmonitor series.id s.season_number],
        true) := by
    rw [processSeasons_append true uo dk series files (s :: post) pre hpre, hstep]
  unfold processEntries
  simp only [hfetch, hseasons]
  simp

/-- Witness for C4's amended theorem: a series with two eligible seasons,
unmonitor failing on season 1, aborts before season 2 contributes any
event. -/
theorem C4_unmonitor_failure_aborts_whole_run_witness :
    (fun _ : Nat => some ([] : List EpisodeFile)) exSeries2.id = some [] ∧
      (processSeasons true (fun _ n => n != 1) (fun _ => true) exSeries2 [] []).2 = false ∧
      (fun _ n => n != 1) exSeries2.id exSeason.season_number = false ∧
      processEntries true (fun _ => some []) (fun _ n => n != 1) (fun _ => true)
          [(exSeries2, [exSeason, exSeason2])] =
        ([Event.fetchFiles 1, Event.report 0 "Show X" 1 5000000000,
          Event.unmonitor 1 1], true) :=
  ⟨rfl, rfl, rfl,
    C4_unmonitor_failure_aborts_whole_run (fun _ => some []) (fun _ n => n != 1)
      (fun _ => true) exSeries2 [] [] [exSeason2] exSeason [] rfl rfl rfl⟩

/-- Counterexample to C4 as stated: with both seasons of `exSeries2`
eligible and the unmonitor call failing on season 1, the run panics and
season 2 is never processed — the trace contains neither its report line
nor its unmonitor call, although the claim says remaining seasons are
still processed. -/
lemma processFiles_reports (dk : Nat → Bool) :
    ∀ files : List EpisodeFile, (processFiles dk files).1.filterMap renderReport = []
  | [] => rfl
  | f :: fs => by
    unfold processFiles
    rcases h : dk f.id with _ | _
    · simp [h, renderReport]
    · simp [h, renderReport, processFiles_reports dk fs]

lemma processSeason_reports (df : Bool) (uo : Nat → Nat → Bool) (dk : Nat → Bool)
    (series : Series) (files : List EpisodeFile) (season : Season) :
    (processSeason df uo dk series files season).1.filterMap renderReport =
      [((files.filter (fun f => f.season_number == season.season_number)).length,
        series.title, "S" ++ pad2 season.season_number, ByteUnit.GiB)] := by
  unfold processSeason
  cases df
  · simp [renderReport, reportSizeUnit]
  · rcases huo : uo series.id season.season_number with _ | _
    · simp [huo, renderReport, reportSizeUnit]
    · simp [huo, renderReport, reportSizeUnit, processFiles_reports]

lemma processSeasons_reports (df : Bool) (uo : Nat → Nat → Bool) (dk : Nat → Bool)
    (series : Series) (files : List EpisodeFile) :
    ∀ l : List Season, (processSeasons df uo dk series files l).2 = false →
      (processSeasons df uo dk series files l).1.filterMap renderReport =
        l.map (fun season =>
          ((files.filter (fun f => f.season_number == season.season_number)).length,
           series.title, "S" ++ pad2 season.season_number, ByteUnit.GiB))
  | [], _ => rfl
  | s :: rest, h => by
    simp only [processSeasons] at h ⊢
    rcases hr : (processSeason df uo dk series files s).2 with _ | _
    · simp only [hr, Bool.false_eq_true, if_false] at h ⊢
      rw [List.filterMap_append, processSeason_reports,
        processSeasons_reports df uo dk series files rest h]
      simp
    · simp [hr] at h

lemma processEntries_reports (df : Bool) (fetchF : Nat → Option (List EpisodeFile))
    (uo : Nat → Nat → Bool) (dk : Nat → Bool) :
    ∀ entries : List (Series × List Season),
      (processEntries df fetchF uo dk entries).2 = false →
      (processEntries df fetchF uo dk entries).1.filterMap renderReport =
        entries.flatMap (fun entry => entry.2.map (fun season =>
          ((((fetchF entry.1.id).getD []).filter
              (fun f => f.season_number == season.season_number)).length,
           entry.1.title, "S" ++ pad2 season.season_number, ByteUnit.GiB)))
  | [], _ => rfl
  | entry :: rest, h => by
    simp only [processEntries] at h ⊢
    rcases hf : fetchF entry.1.id with _ | files
    · rw [hf] at h
      simp at h
    · rw [hf] at h
      rcases hr : (processSeasons df uo dk entry.1 files entry.2).2 with _ | _
      · simp only [hr, Bool.false_eq_true, if_false] at h ⊢
        rw [List.filterMap_cons]
        simp only [renderReport]
        rw [List.filterMap_append, processSeasons_reports df uo dk entry.1 files entry.2 hr,
          processEntries_reports df fetchF uo dk rest h]
        simp [List.flatMap_cons, hf]
      · simp [hr] at h

/-- C8 (amended): in a run whose orchestration loop finishes without a
panic (no fetch/unmonitor/delete failure aborts it), the report lines of
the trace are, in order, exactly one line per eligible season — dry-run
and execute mode alike — carrying the season's file count, the series
title, the season number zero-padded to 2 digits, and the reclaimed size
rendered in the fixed GiB unit (`get_adjusted_unit(ByteUnit::GiB)`), not
in an auto-scaled unit. -/
theorem C8_one_report_line_per_eligible_season (df : Bool)
    (fetchF : Nat → Option (List EpisodeFile)) (uo : Nat → Nat → Bool) (dk : Nat → Bool)
    (entries : List (Series × List Season))
    (h : (processEntries df fetchF uo dk entries).2 = false) :
    (processEntries df fetchF uo dk entries).1.filterMap renderReport =
      entries.flatMap (fun entry => entry.2.map (fun season =>
        ((((fetchF entry.1.id).getD []).filter
            (fun f => f.season_number == season.season_number)).length,
         entry.1.title, "S" ++ pad2 season.season_number, ByteUnit.GiB))) :=
  processEntries_reports df fetchF uo dk entries h

/-- Witness for C8's amended theorem: a dry run over the two-season series
emits exactly the two report lines, labelled S01 and S02, with the GiB
unit. -/
theorem C8_one_report_line_per_eligible_season_witness :
    (processEntries false (fun _ => some []) (fun _ _ => true) (fun _ => true)
        [(exSeries2, [exSeason, exSeason2])]).2 = false ∧
      (processEntries false (fun _ => some []) (fun _ _ => true) (fun _ => true)
          [(exSeries2, [exSeason, exSeason2])]).1.filterMap renderReport =
        [(0, "Show X", "S01", ByteUnit.GiB), (0, "Show X", "S02", ByteUnit.GiB)] :=
  ⟨rfl,
    C8_one_report_line_per_eligible_season false (fun _ => some []) (fun _ _ => true)
      (fun _ => true) [(exSeries2, [exSeason, exSeason2])] rfl⟩

/-- Season statistics with a 1024-byte season, to exhibit the rendering
unit. -/
def exStatsSmall : SeasonStats :=
  { exStats with size_on_disk := 1024 }

/-- Concrete 1024-byte season. -/
def exSeasonSmall : Season :=
  { season_number := 1, monitored := true, statistics := exStatsSmall }

/-- Concrete series holding the 1024-byte season. -/
def exSeriesSmall : Series :=
  { title := "Show X", id := 1, tags := [], seasons := [exSeasonSmall] }

/-- Counterexample to C8 as stated: (i) the report line for a 1024-byte
season renders its size in GiB — the source passes `ByteUnit::GiB` to
`get_adjusted_unit`, which converts to that fixed unit — while an
auto-scaled rendering of 1024 bytes would use KiB; (ii) in execute mode a
failing episode-file fetch panics before the report line, so an eligible
season can get zero report lines rather than exactly one. -/
theorem C8_report_unit_counterexample :
    ((processEntries false (fun _ => some []) (fun _ _ => true) (fun _ => true)
        [(exSeriesSmall, [exSeasonSmall])]).1.filterMap renderReport =
      [(0, "Show X", "S01", ByteUnit.GiB)]) ∧
      autoScaledUnit 1024 = ByteUnit.KiB ∧
      ByteUnit.GiB ≠ ByteUnit.KiB ∧
      (processEntries true (fun _ => none) (fun _ _ => true) (fun _ => true)
          [(exSeries, [exSeason])]).1.filterMap renderReport = [] := by
  decide

theorem C4_remaining_season_not_processed_counterexample :
    (processEntries true (fun _ => some []) (fun _ n => n != 1) (fun _ => true)
        [(exSeries2, [exSeason, exSeason2])]).2 = true ∧
      Event.report 0 "Show X" 2 5000000000 ∉
        (processEntries true (fun _ => some []) (fun _ n => n != 1) (fun _ => true)
          [(exSeries2, [exSeason, exSeason2])]).1 ∧
      Event.unmonitor 1 2 ∉
        (processEntries true (fun _ => some []) (fun _ n => n != 1) (fun _ => true)
          [(exSeries2, [exSeason, exSeason2])]).1 := by
  decide

end TV

namespace TV

open Sonarr

/-- Concrete Plex season with zero known and zero viewed episodes
(`0 == 0`), of the regular `TVSeason` kind. -/
def exPlexSeason : Plex.Season :=
  { id := "12"
    show_name := "Show X"
    title := "Season 1"
    kind := Plex.MediaKind.TVSeason
    episodes := 0
    viewed_episodes := 0 }

/-- C9: a Plex season whose viewed-episode count equals its known-episode
count is `fully_watched` — including the zero-count and omitted-count
cases, which both compare `0 == 0` — so it is inserted into the watched
set built by `TVCommand::run`, and a download-tracker season whose
watched key matches it passes the watched check (it is eligible whenever
the remaining three checks hold). -/
theorem C9_fully_watched_feeds_watched_set (ss : List Plex.Season) (s : Plex.Season)
    (hs : s ∈ ss) (hw : s.viewed_episodes = s.episodes) :
    s.fully_watched = true ∧
      (s.show_name, s.title) ∈ watchedSeasons ss ∧
      (∀ (id title : String) (kind : Option Plex.MediaKind),
        (Plex.seasonOfListing id none title kind none none).fully_watched = true) ∧
      (∀ (d now : Int) (series : Series) (season : Season),
        series.title = s.show_name →
        "Season " ++ toString season.season_number = s.title →
        season.statistics.next_airing = none →
        (∃ air, season.statistics.previous_airing = some air ∧ air + d < now) →
        season.statistics.size_on_disk ≠ 0 →
        seasonEligible d now (watchedSeasons ss) series season = true) := by
  have hfw : s.fully_watched = true := by
    simp [Plex.Season.fully_watched, hw]
  have hmem : (s.show_name, s.title) ∈ watchedSeasons ss := by
    unfold watchedSeasons
    exact List.mem_map.mpr ⟨s, List.mem_filter.mpr ⟨hs, hfw⟩, rfl⟩
  refine ⟨hfw, hmem, fun id title kind => rfl, ?_⟩
  intro d now series season h1 h2 h3 h4 h5
  apply (seasonEligible_iff d now (watchedSeasons ss) series season).mpr
  refine ⟨?_, h3, h4, h5⟩
  unfold watchedKey
  rw [h1, h2]
  exact hmem

/-- Witness for C9 at the concrete zero-count season. -/
theorem C9_fully_watched_feeds_watched_set_witness :
    exPlexSeason ∈ [exPlexSeason] ∧
      exPlexSeason.viewed_episodes = exPlexSeason.episodes ∧
      exPlexSeason.fully_watched = true ∧
      (exPlexSeason.show_name, exPlexSeason.title) ∈ watchedSeasons [exPlexSeason] :=
  ⟨by simp, rfl,
    (C9_fully_watched_feeds_watched_set [exPlexSeason] exPlexSeason (by simp) rfl).1,
    (C9_fully_watched_feeds_watched_set [exPlexSeason] exPlexSeason (by simp) rfl).2.1⟩

end TV

namespace Sonarr

lemma find?_enumFrom_season_spec (season : Nat) :
    ∀ (l : List UpdateSeason) (k : Nat),
      ((l.enumFrom k).find? (fun q => q.2.season_number == season) = none ∧
        ∀ s ∈ l, s.season_number ≠ season) ∨
      (∃ pre x post,
        (l.enumFrom k).find? (fun q => q.2.season_number == season) =
          some (k + pre.length, x) ∧
        l = pre ++ x :: post ∧
        (∀ y ∈ pre, y.season_number ≠ season) ∧
        x.season_number = season ∧
        l.set pre.length { x with monitored := false } =
          pre ++ { x with monitored := false } :: post)
  | [], k => Or.inl ⟨rfl, by simp⟩
  | a :: l, k => by
    rcases h : a.season_number == season with _ | _
    · rcases find?_enumFrom_season_spec season l (k + 1) with
        ⟨hnone, hall⟩ | ⟨pre, x, post, hfind, hl, hpre, hx, hset⟩
      · left
        constructor
        · simp only [List.enumFrom]
          rw [List.find?_cons_of_neg _ (by simp [h])]
          exact hnone
        · intro s hs
          rcases List.mem_cons.mp hs with rfl | hs2
          · simpa using h
          · exact hall s hs2
      · right
        refine ⟨a :: pre, x, post, ?_, by rw [hl, List.cons_append], ?_, hx, ?_⟩
        · simp only [List.enumFrom]
          rw [List.find?_cons_of_neg _ (by simp [h]), hfind]
          have harith : k + 1 + pre.length = k + (a :: pre).length := by
            simp [List.length_cons]
            omega
          rw [harith]
        · intro y hy
          rcases List.mem_cons.mp hy with rfl | hy2
          · simpa using h
          · exact hpre y hy2
        · simp only [List.length_cons, List.set_cons_succ] at hset ⊢
          rw [hset, List.cons_append]
    · right
      refine ⟨[], a, l, ?_, by simp, by simp, by simpa using h, by simp⟩
      simp only [List.enumFrom]
      rw [List.find?_cons_of_pos _ (by simp [h])]
      simp

/-- C10: `unmonitor_season` sends no update request (and returns success)
when the fetched record has no season with the requested number; when it
has one, the submitted record differs from the fetched one only in the
first matching season's `monitored` flag, which is set to `false` — its
other fields, all other seasons, the record id and the flattened extra
bags are resubmitted unchanged. -/
theorem C10_unmonitor_season_frame (series : UpdateSeries) (season : Nat) :
    ((∀ s ∈ series.seasons, s.season_number ≠ season) →
      unmonitor_season_update series season = none) ∧
    (∀ out, unmonitor_season_update series season = some out →
      out.id = series.id ∧ out.extra = series.extra ∧
      ∃ pre x post,
        series.seasons = pre ++ x :: post ∧
        (∀ y ∈ pre, y.season_number ≠ season) ∧
        x.season_number = season ∧
        out.seasons = pre ++ { x with monitored := false } :: post) := by
  rcases find?_enumFrom_season_spec season series.seasons 0 with
    ⟨hnone, hall⟩ | ⟨pre, x, post, hfind, hl, hpre, hx, hset⟩
  · constructor
    · intro _
      unfold unmonitor_season_update
      rw [show series.seasons.enum = series.seasons.enumFrom 0 from rfl, hnone]
    · intro out hout
      unfold unmonitor_season_update at hout
      rw [show series.seasons.enum = series.seasons.enumFrom 0 from rfl, hnone] at hout
      cases hout
  · constructor
    · intro hcontra
      refine absurd hx (hcontra x ?_)
      rw [hl]
      exact List.mem_append_right _ (List.mem_cons_self x post)
    · intro out hout
      unfold unmonitor_season_update at hout
      rw [show series.seasons.enum = series.seasons.enumFrom 0 from rfl, hfind] at hout
      have hout2 : ({ series with
          seasons := List.set series.seasons (0 + pre.length) { x with monitored := false } } :
            UpdateSeries) = out :=
        Option.some.inj hout
      subst hout2
      refine ⟨rfl, rfl, pre, x, post, hl, hpre, hx, ?_⟩
      dsimp only
      rw [Nat.zero_add]
      exact hset

/-- Concrete fetched series record for the C10 witness: two seasons with
extra fields, plus record-level extra fields. -/
def exUpdateSeries : UpdateSeries :=
  { id := 9
    seasons := [{ season_number := 1, monitored := true, extra := [("a", JValue.num 3)] },
                { season_number := 2, monitored := true, extra := [] }]
    extra := [("x", JValue.str "y")] }

/-- Witness for C10: requesting season 5 (absent) sends no update;
requesting season 2 resubmits the record with only that season's
`monitored` flag cleared. -/
theorem C10_unmonitor_season_frame_witness :
    ((∀ s ∈ exUpdateSeries.seasons, s.season_number ≠ 5) ∧
      unmonitor_season_update exUpdateSeries 5 = none) ∧
      (unmonitor_season_update exUpdateSeries 2 =
          some { exUpdateSeries with seasons :=
            [{ season_number := 1, monitored := true, extra := [("a", JValue.num 3)] },
             { season_number := 2, monitored := false, extra := [] }] } ∧
        ∃ pre x post,
          exUpdateSeries.seasons = pre ++ x :: post ∧
          (∀ y ∈ pre, y.season_number ≠ 2) ∧
          x.season_number = 2 ∧
          ({ exUpdateSeries with seasons :=
            [{ season_number := 1, monitored := true, extra := [("a", JValue.num 3)] },
             { season_number := 2, monitored := false, extra := [] }] } : UpdateSeries).seasons =
            pre ++ { x with monitored := false } :: post) :=
  ⟨⟨by decide, (C10_unmonitor_season_frame exUpdateSeries 5).1 (by decide)⟩,
    ⟨rfl, (((C10_unmonitor_season_frame exUpdateSeries 2).2 _ rfl).2.2)⟩⟩

end Sonarr
